import Mathlib

/-!
Shallow embedding of the Jira MCP synchronization agent
(`mavric_pm_copilot/jira/mcp_agent.py`).

Python values that may be absent, null, or a string are modelled with
`Option PyStr`: `none` is a missing key, `some PyStr.none` is an explicit
null, `some (PyStr.str s)` is a string value.  Remote HTTP traffic is
modelled by an oracle `RemoteEnv` giving the response of each endpoint,
and an `AgentState` carrying the account cache and the trace of remote
calls issued so far.
-/

namespace Mcp

/-- A Python value in a string-typed position: explicit `None` or a string. -/
inductive PyStr where
  | none : PyStr
  | str : String → PyStr
deriving DecidableEq, Repr

/-- `mapping.get(key)`: a missing key and an explicit null both give `None`. -/
def getStr : Option PyStr → Option String
  | Option.none => Option.none
  | some PyStr.none => Option.none
  | some (PyStr.str s) => some s

/-- `mapping.get(key, default)` with a string default: only a missing key
is replaced by the default; an explicit null stays null. -/
def getStrD (v : Option PyStr) (d : String) : PyStr :=
  match v with
  | Option.none => PyStr.str d
  | some x => x

/-- Python truthiness of an optional string: `None` and `""` are falsy. -/
def optTruthy : Option String → Bool
  | Option.none => false
  | some s => !s.isEmpty

/-- Characters Python `str.splitlines` treats as line boundaries. -/
def isLineBound (c : Char) : Bool :=
  c = '\n' || c = '\r' || c = '\x0b' || c = '\x0c' ||
  c = '\x1c' || c = '\x1d' || c = '\x1e' || c = '\x85' ||
  c = '\u2028' || c = '\u2029'

/-- Worker for `pySplitlines`: `acc` holds the current segment reversed.
A `"\r\n"` pair is a single boundary; a boundary at the very end of the
input does not produce a trailing empty segment. -/
def splitlinesAux : List Char → List Char → List String
  | [], acc => [String.mk acc.reverse]
  | '\r' :: '\n' :: rest, acc =>
    String.mk acc.reverse :: (if rest.isEmpty then [] else splitlinesAux rest [])
  | c :: rest, acc =>
    if isLineBound c then
      String.mk acc.reverse :: (if rest.isEmpty then [] else splitlinesAux rest [])
    else
      splitlinesAux rest (c :: acc)

/-- Python `text.splitlines()`: the empty string yields no lines. -/
def pySplitlines (s : String) : List String :=
  match s.data with
  | [] => []
  | c :: cs => splitlinesAux (c :: cs) []

/-- Characters Python `str.strip` removes. -/
def pyIsSpace (c : Char) : Bool :=
  c = ' ' || c = '\t' || c = '\n' || c = '\r' || c = '\x0b' || c = '\x0c'

/-- Truthiness of `line.strip()`: true iff some character is not whitespace. -/
def stripIsTruthy (s : String) : Bool :=
  s.data.any (fun c => !(pyIsSpace c))

/-- One ADF paragraph block; `content` is its list of text nodes. -/
structure Paragraph where
  content : List String
deriving DecidableEq, Repr

/-- A minimal Atlassian Document Format document: a list of paragraphs. -/
structure AdfDoc where
  content : List Paragraph
deriving DecidableEq, Repr

/-- `lines = text.splitlines() or [text]` in `_to_adf`. -/
def effectiveLines (text : String) : List String :=
  let lines := pySplitlines text
  if lines.isEmpty then [text] else lines

/-- `JiraMcpAgent._to_adf`: one paragraph per line; a whitespace-only line
becomes an empty paragraph; if no paragraph was produced, one empty
paragraph is appended. -/
def toAdf (text : String) : AdfDoc :=
  let paragraphs := (effectiveLines text).map (fun line =>
    if stripIsTruthy line then ({ content := [line] } : Paragraph)
    else ({ content := [] } : Paragraph))
  let paragraphs := if paragraphs.isEmpty then [({ content := [] } : Paragraph)] else paragraphs
  { content := paragraphs }

theorem effectiveLines_ne_nil (text : String) : effectiveLines text ≠ [] := by
  unfold effectiveLines
  by_cases h : (pySplitlines text).isEmpty
  · simp [h]
  · simpa [h] using fun hnil => h (by simp [hnil])

theorem countP_add_countP_not (p : α → Bool) (l : List α) :
    l.countP p + l.countP (fun a => !p a) = l.length := by
  induction l with
  | nil => simp
  | cons a l ih =>
    by_cases h : p a <;> simp [List.countP_cons, h] <;> omega

/-- C5: the document formatter is total, returns one paragraph block per
input line in order with whitespace-only lines becoming empty blocks, the
block count is the number of content lines plus the number of
whitespace-only lines, and the empty string yields one empty block. -/
theorem toAdf_line_blocks (text : String) :
    (toAdf text).content
      = (effectiveLines text).map (fun line =>
          if stripIsTruthy line then ({ content := [line] } : Paragraph)
          else ({ content := [] } : Paragraph))
    ∧ (toAdf text).content.length
      = (effectiveLines text).countP (fun l => stripIsTruthy l)
        + (effectiveLines text).countP (fun l => !stripIsTruthy l)
    ∧ (toAdf "").content = [({ content := [] } : Paragraph)] := by
  have hne : effectiveLines text ≠ [] := effectiveLines_ne_nil text
  have h : ((effectiveLines text).map (fun line =>
      if stripIsTruthy line then ({ content := [line] } : Paragraph)
      else ({ content := [] } : Paragraph))).isEmpty = false := by
    rw [List.isEmpty_eq_false]
    simp [hne]
  refine ⟨?_, ?_, rfl⟩
  · unfold toAdf
    simp [h]
  · unfold toAdf
    simp only [h, Bool.false_eq_true, if_false, List.length_map]
    exact (countP_add_countP_not (fun l => stripIsTruthy l) (effectiveLines text)).symm

/-- A create instruction mapping, as read by `_create_issue`.  Each field
is `none` when the key is missing and `some PyStr.none` when explicitly
null.  `labels` is `none` when missing or null. -/
structure CreateTicket where
  project_key : Option PyStr
  summary : Option PyStr
  description : Option PyStr
  issue_type : Option PyStr
  priority : Option PyStr
  labels : Option (List String)
  due_date : Option PyStr
  assignee : Option PyStr
deriving DecidableEq, Repr

/-- A field value in an update instruction's `fields` mapping. -/
inductive FieldVal where
  | str : String → FieldVal
  | adf : AdfDoc → FieldVal
  | other : FieldVal
deriving DecidableEq, Repr

/-- An update instruction mapping, as read by `_update_issue`.  `fields`
is `none` when the key is missing or null. -/
structure UpdateTicket where
  issue_key : Option PyStr
  comment : Option PyStr
  new_status : Option PyStr
  fields : Option (List (String × FieldVal))
deriving DecidableEq, Repr

/-- One entry of the transitions list returned by the transitions fetch:
`id` is `transition.get("id")`, `toName` is
`transition.get("to", {}).get("name", "")`. -/
structure Transition where
  id : Option String
  toName : String
deriving DecidableEq, Repr

/-- One entry of the user-search response body. -/
structure JiraUser where
  accountId : String
deriving DecidableEq, Repr

/-- The `fields` object submitted by the issue-creation request. -/
structure CreateFields where
  projectKey : String
  summary : String
  description : AdfDoc
  issuetypeName : PyStr
  priorityName : PyStr
  labels : List String
  duedate : Option String
  assigneeId : Option String
deriving DecidableEq, Repr

/-- A remote HTTP call issued by the agent, recorded in submission order. -/
inductive RemoteCall where
  | createIssue : CreateFields → RemoteCall
  | addComment : String → AdfDoc → RemoteCall
  | getTransitions : String → RemoteCall
  | postTransition : String → String → RemoteCall
  | putFields : String → List (String × FieldVal) → RemoteCall
  | userSearch : String → RemoteCall
deriving DecidableEq, Repr

/-- Oracle for the remote service: the response each endpoint would give.
Every pair is a status code together with the parsed response body. -/
structure RemoteEnv where
  createResp : CreateFields → Nat × Option String
  commentResp : String → AdfDoc → Nat
  transitionsResp : String → Nat × List Transition
  transitionSubmitResp : String → String → Nat
  updateFieldsResp : String → List (String × FieldVal) → Nat
  userSearchResp : String → Nat × List JiraUser

/-- Mutable agent state: the account cache (`self._account_cache`, an
insertion-ordered mapping) and the trace of remote calls issued. -/
structure AgentState where
  accountCache : List (String × Option String)
  calls : List RemoteCall
deriving DecidableEq, Repr

/-- State of a freshly constructed agent: empty cache, no calls. -/
def newAgentState : AgentState :=
  { accountCache := [], calls := [] }

/-- `JiraAction`: result entry for one created issue. -/
structure JiraAction where
  key : Option String
  summary : String
deriving DecidableEq, Repr

/-- `JiraUpdateAction`: result entry for one updated issue. -/
structure JiraUpdateAction where
  key : String
  comments_added : List String
  new_status : Option String
  fields_updated : List String
deriving DecidableEq, Repr

/-- `JiraSyncResult`: summary returned by a sync run. -/
structure JiraSyncResult where
  created : List JiraAction
  updated : List JiraUpdateAction
  unresolved_assignees : List String
deriving DecidableEq, Repr

/-- Python dict assignment on an association list: replace the binding if
the key is present, otherwise append it. -/
def assocInsert (l : List (String × Option String)) (k : String) (v : Option String) :
    List (String × Option String) :=
  if l.any (fun p => p.1 = k) then
    l.map (fun p => if p.1 = k then (k, v) else p)
  else
    l ++ [(k, v)]

/-- `JiraMcpAgent._lookup_account_id`: cache hit returns immediately; a
miss issues one user-search call, caches the outcome (the first match's
account id, or `none` on a non-success response or an empty result), and
returns it. -/
def lookupAccountId (env : RemoteEnv) (st : AgentState) (name : String) :
    Option String × AgentState :=
  match List.lookup name st.accountCache with
  | some cached => (cached, st)
  | Option.none =>
    let st1 : AgentState := { st with calls := st.calls ++ [RemoteCall.userSearch name] }
    let resp := env.userSearchResp name
    if resp.1 ≥ 300 then
      (Option.none, { st1 with accountCache := assocInsert st1.accountCache name Option.none })
    else
      let accountId : Option String :=
        match resp.2 with
        | [] => Option.none
        | u :: _ => some u.accountId
      (accountId, { st1 with accountCache := assocInsert st1.accountCache name accountId })

/-- Assignee handling in `_create_issue`: a truthy assignee name is
resolved through `_lookup_account_id`; otherwise no lookup happens. -/
def resolveAssignee (env : RemoteEnv) (st : AgentState) (assignee : Option String) :
    Option String × AgentState :=
  match assignee with
  | some nm => if nm.isEmpty then (Option.none, st) else lookupAccountId env st nm
  | Option.none => (Option.none, st)

/-- The `fields` object built by `_create_issue`: defaults `issue_type`
and `priority` via `get(key, default)`, defaults a falsy label list,
formats the description, and includes `duedate` and `assignee` only when
the due date and the resolved account id are truthy. -/
def mkCreateFields (t : CreateTicket) (pk sm ds : String) (acc : Option String) :
    CreateFields :=
  { projectKey := pk
    summary := sm
    description := toAdf ds
    issuetypeName := getStrD t.issue_type "Task"
    priorityName := getStrD t.priority "Medium"
    labels :=
      match t.labels with
      | Option.none => ["pm-copilot"]
      | some [] => ["pm-copilot"]
      | some (l :: ls) => l :: ls
    duedate := if optTruthy (getStr t.due_date) then getStr t.due_date else Option.none
    assigneeId := if optTruthy acc then acc else Option.none }

/-- `JiraMcpAgent._create_issue`: validate required fields, apply
defaults, resolve the assignee, submit, and report the created action. -/
def createIssue (env : RemoteEnv) (st : AgentState) (t : CreateTicket) :
    Option JiraAction × AgentState :=
  match getStr t.project_key, getStr t.summary, getStr t.description with
  | some pk, some sm, some ds =>
    if pk.isEmpty || sm.isEmpty || ds.isEmpty then (Option.none, st)
    else
      let lookupStep : Option String × AgentState :=
        resolveAssignee env st (getStr t.assignee)
      let fields : CreateFields := mkCreateFields t pk sm ds lookupStep.1
      let st2 : AgentState :=
        { lookupStep.2 with calls := lookupStep.2.calls ++ [RemoteCall.createIssue fields] }
      let resp := env.createResp fields
      if resp.1 ≥ 300 then (Option.none, st2)
      else (some { key := resp.2, summary := sm }, st2)
  | _, _, _ => (Option.none, st)

/-- `JiraMcpAgent._add_comment`: submit the formatted comment; success is
a status below 300. -/
def addComment (env : RemoteEnv) (st : AgentState) (issueKey comment : String) :
    Bool × AgentState :=
  let body := toAdf comment
  let st1 : AgentState := { st with calls := st.calls ++ [RemoteCall.addComment issueKey body] }
  (decide (env.commentResp issueKey body < 300), st1)

/-- First transition whose destination-state name matches the target
case-insensitively: `none` when no name matches, otherwise the `id` of
the first match (itself possibly absent). -/
def findTransition : List Transition → String → Option (Option String)
  | [], _ => Option.none
  | tr :: rest, target =>
    if tr.toName.toLower = target.toLower then some tr.id
    else findTransition rest target

/-- `JiraMcpAgent._transition_issue`: fetch valid transitions, pick the
first case-insensitive destination match, and submit it; fails on a
failed fetch, no match, a falsy transition id, or a failed submit. -/
def transitionIssue (env : RemoteEnv) (st : AgentState) (issueKey newStatus : String) :
    Bool × AgentState :=
  let st1 : AgentState := { st with calls := st.calls ++ [RemoteCall.getTransitions issueKey] }
  let resp := env.transitionsResp issueKey
  if resp.1 ≥ 300 then (false, st1)
  else
    match findTransition resp.2 newStatus with
    | some (some tid) =>
      if tid.isEmpty then (false, st1)
      else
        let st2 : AgentState :=
          { st1 with calls := st1.calls ++ [RemoteCall.postTransition issueKey tid] }
        (decide (env.transitionSubmitResp issueKey tid < 300), st2)
    | _ => (false, st1)

/-- Description formatting applied to a field patch before submission: a
string-valued `description` entry is converted to a document. -/
def adfPatch (fields : List (String × FieldVal)) : List (String × FieldVal) :=
  fields.map (fun p =>
    if p.1 = "description" then
      match p.2 with
      | FieldVal.str s => (p.1, FieldVal.adf (toAdf s))
      | v => (p.1, v)
    else p)

/-- `JiraMcpAgent._update_fields`: submit the full (formatted) field map
in one request; success is a status below 300. -/
def updateFieldsOp (env : RemoteEnv) (st : AgentState) (issueKey : String)
    (fields : List (String × FieldVal)) : Bool × AgentState :=
  let payloadFields := adfPatch fields
  let st1 : AgentState :=
    { st with calls := st.calls ++ [RemoteCall.putFields issueKey payloadFields] }
  (decide (env.updateFieldsResp issueKey payloadFields < 300), st1)

/-- Comment handling in `_update_issue`: a truthy comment is submitted
and, on success, the marker `"comment"` is recorded. -/
def commentStage (env : RemoteEnv) (st : AgentState) (ik : String) (t : UpdateTicket) :
    List String × AgentState :=
  match getStr t.comment with
  | some c =>
    if c.isEmpty then ([], st)
    else
      let r := addComment env st ik c
      (if r.1 then ["comment"] else [], r.2)
  | Option.none => ([], st)

/-- Status handling in `_update_issue`: a truthy target status is
transitioned to and, on success, the requested status name is recorded. -/
def statusStage (env : RemoteEnv) (st : AgentState) (ik : String) (t : UpdateTicket) :
    Option String × AgentState :=
  match getStr t.new_status with
  | some ns =>
    if ns.isEmpty then (Option.none, st)
    else
      let r := transitionIssue env st ik ns
      (if r.1 then some ns else Option.none, r.2)
  | Option.none => (Option.none, st)

/-- Field-patch handling in `_update_issue`: a non-empty field mapping is
submitted and, on success, its key list is recorded. -/
def fieldsStage (env : RemoteEnv) (st : AgentState) (ik : String) (t : UpdateTicket) :
    List String × AgentState :=
  let fs := t.fields.getD []
  if fs.isEmpty then ([], st)
  else
    let r := updateFieldsOp env st ik fs
    (if r.1 then fs.map Prod.fst else [], r.2)

/-- `JiraMcpAgent._update_issue`: skip on a falsy issue key, then attempt
the comment, the status change, and the field patch independently in that
order, returning an action iff at least one sub-operation succeeded. -/
def updateIssue (env : RemoteEnv) (st : AgentState) (t : UpdateTicket) :
    Option JiraUpdateAction × AgentState :=
  match getStr t.issue_key with
  | Option.none => (Option.none, st)
  | some ik =>
    if ik.isEmpty then (Option.none, st)
    else
      let step1 : List String × AgentState := commentStage env st ik t
      let step2 : Option String × AgentState := statusStage env step1.2 ik t
      let step3 : List String × AgentState := fieldsStage env step2.2 ik t
      if !step1.1.isEmpty || optTruthy step2.1 || !step3.1.isEmpty then
        (some { key := ik, comments_added := step1.1, new_status := step2.1,
                fields_updated := step3.1 }, step3.2)
      else
        (Option.none, step3.2)

/-- Loop over the creation list, keeping the produced actions in order. -/
def runCreates (env : RemoteEnv) : List CreateTicket → AgentState →
    List JiraAction × AgentState
  | [], st => ([], st)
  | t :: ts, st =>
    let r := createIssue env st t
    let rest := runCreates env ts r.2
    (match r.1 with
     | some a => a :: rest.1
     | Option.none => rest.1, rest.2)

/-- Loop over the update list, keeping the produced actions in order. -/
def runUpdates (env : RemoteEnv) : List UpdateTicket → AgentState →
    List JiraUpdateAction × AgentState
  | [], st => ([], st)
  | t :: ts, st =>
    let r := updateIssue env st t
    let rest := runUpdates env ts r.2
    (match r.1 with
     | some a => a :: rest.1
     | Option.none => rest.1, rest.2)

/-- A Python value sitting under one of the two payload keys: a string, a
list of instruction mappings, or some non-sequence value. -/
inductive SeqVal (α : Type) where
  | str : String → SeqVal α
  | list : List α → SeqVal α
  | notSeq : SeqVal α
deriving DecidableEq, Repr

/-- The instruction payload passed to `sync_from_payload`; `none` marks a
missing key. -/
structure Payload where
  tickets_to_create : Option (SeqVal CreateTicket)
  tickets_to_update : Option (SeqVal UpdateTicket)
deriving DecidableEq, Repr

/-- Exceptions `sync_from_payload` can raise: the `ValueError` for a
malformed payload shape, or the `AttributeError` hit when iterating a
non-empty string's characters as instruction mappings. -/
inductive SyncError where
  | payloadShape : SyncError
  | attrError : SyncError
deriving DecidableEq, Repr

/-- Python `isinstance(x, Sequence)`: strings and lists are sequences. -/
def isSequence : SeqVal α → Bool
  | SeqVal.str _ => true
  | SeqVal.list _ => true
  | SeqVal.notSeq => false

/-- Iteration of a payload value as instruction mappings: a list yields
its elements; an empty string yields nothing; the first character of a
non-empty string is not a mapping and raising is modelled as `none`. -/
def seqElems : SeqVal α → Option (List α)
  | SeqVal.str s => if s.isEmpty then some [] else Option.none
  | SeqVal.list ts => some ts
  | SeqVal.notSeq => Option.none

/-- `JiraMcpAgent.sync_from_payload`: default missing keys to empty
lists, reject non-sequence values, process all creates then all updates,
and report the names whose cached resolution is falsy. -/
def syncFromPayload (env : RemoteEnv) (st0 : AgentState) (p : Payload) :
    Except SyncError (JiraSyncResult × AgentState) :=
  let tickets_to_create := p.tickets_to_create.getD (SeqVal.list [])
  let tickets_to_update := p.tickets_to_update.getD (SeqVal.list [])
  if !isSequence tickets_to_create || !isSequence tickets_to_update then
    Except.error SyncError.payloadShape
  else
    match seqElems tickets_to_create with
    | Option.none => Except.error SyncError.attrError
    | some cs =>
      let cr := runCreates env cs st0
      match seqElems tickets_to_update with
      | Option.none => Except.error SyncError.attrError
      | some us =>
        let ur := runUpdates env us cr.2
        let unresolved := (ur.2.accountCache.filter (fun q => !optTruthy q.2)).map Prod.fst
        Except.ok ({ created := cr.1, updated := ur.1,
                     unresolved_assignees := unresolved }, ur.2)

/-- Remote service in which every call succeeds: creation returns key
`SCRUM-42`, the transitions list has one transition to `Done`, and user
search finds one account. -/
def envOk : RemoteEnv :=
  { createResp := fun _ => (201, some "SCRUM-42")
    commentResp := fun _ _ => 201
    transitionsResp := fun _ => (200, [{ id := some "31", toName := "Done" }])
    transitionSubmitResp := fun _ _ => 204
    updateFieldsResp := fun _ _ => 204
    userSearchResp := fun _ => (200, [{ accountId := "acct-1" }]) }

/-- Remote service in which every call fails with status 500. -/
def envFail : RemoteEnv :=
  { createResp := fun _ => (500, Option.none)
    commentResp := fun _ _ => 500
    transitionsResp := fun _ => (500, [])
    transitionSubmitResp := fun _ _ => 500
    updateFieldsResp := fun _ _ => 500
    userSearchResp := fun _ => (500, []) }

/-- Remote service where comments and field patches succeed but the
transitions fetch returns an empty list, so every status change fails. -/
def envNoTransition : RemoteEnv :=
  { createResp := fun _ => (201, some "SCRUM-42")
    commentResp := fun _ _ => 201
    transitionsResp := fun _ => (200, [])
    transitionSubmitResp := fun _ _ => 204
    updateFieldsResp := fun _ _ => 204
    userSearchResp := fun _ => (200, [{ accountId := "acct-1" }]) }

/-- Create instruction with every optional key missing. -/
def baseCreateTicket : CreateTicket :=
  { project_key := Option.none, summary := Option.none, description := Option.none
    issue_type := Option.none, priority := Option.none, labels := Option.none
    due_date := Option.none, assignee := Option.none }

/-- Update instruction with every key missing. -/
def baseUpdateTicket : UpdateTicket :=
  { issue_key := Option.none, comment := Option.none, new_status := Option.none
    fields := Option.none }

/-- C7: a create instruction whose project key, summary, or description is
missing, null, or empty is skipped: no action is returned and the agent
state — in particular the remote-call trace — is unchanged. -/
theorem createIssue_missing_required (env : RemoteEnv) (st : AgentState) (t : CreateTicket)
    (h : optTruthy (getStr t.project_key) = false
      ∨ optTruthy (getStr t.summary) = false
      ∨ optTruthy (getStr t.description) = false) :
    createIssue env st t = (Option.none, st) := by
  unfold createIssue
  rcases hpk : getStr t.project_key with _ | pk <;>
    rcases hsm : getStr t.summary with _ | sm <;>
      rcases hds : getStr t.description with _ | ds <;>
        rcases h with h | h | h <;>
          simp_all [optTruthy]

/-- Create instruction with a summary and description but no project key. -/
def ticketNoProject : CreateTicket :=
  { baseCreateTicket with
      summary := some (PyStr.str "Fix bug")
      description := some (PyStr.str "desc") }

theorem createIssue_missing_required_witness :
    createIssue envOk newAgentState ticketNoProject = (Option.none, newAgentState) :=
  createIssue_missing_required envOk newAgentState ticketNoProject (Or.inl (by decide))

/-- C1 counterexample: a payload missing both keys does not raise — the
missing keys default to empty lists and sync returns an empty result. -/
theorem sync_missing_keys_no_raise :
    syncFromPayload envFail newAgentState
        { tickets_to_create := Option.none, tickets_to_update := Option.none }
      = Except.ok ({ created := [], updated := [], unresolved_assignees := [] },
                   newAgentState) := by
  rfl

/-- C1 (amended): a payload in which either key is present with a
non-sequence value raises the payload-shape failure; a missing key
defaults to an empty list (the run proceeds as if the list were empty);
and for both keys present as lists of instruction mappings, sync never
raises and always returns a result. -/
theorem sync_payload_shape (env : RemoteEnv) (st0 : AgentState) (p : Payload) :
    ((p.tickets_to_create = some SeqVal.notSeq ∨ p.tickets_to_update = some SeqVal.notSeq) →
      syncFromPayload env st0 p = Except.error SyncError.payloadShape)
    ∧ (∀ (cs : List CreateTicket) (us : List UpdateTicket),
        ∃ r, syncFromPayload env st0
          { tickets_to_create := some (SeqVal.list cs),
            tickets_to_update := some (SeqVal.list us) } = Except.ok r)
    ∧ syncFromPayload env st0
        { tickets_to_create := Option.none, tickets_to_update := Option.none }
      = syncFromPayload env st0
          { tickets_to_create := some (SeqVal.list []),
            tickets_to_update := some (SeqVal.list []) } := by
  refine ⟨?_, ?_, rfl⟩
  · rintro (h | h) <;> simp [syncFromPayload, h, isSequence]
  · intro cs us
    exact ⟨_, rfl⟩

theorem sync_payload_shape_witness :
    syncFromPayload envFail newAgentState
        { tickets_to_create := some SeqVal.notSeq,
          tickets_to_update := some (SeqVal.list []) }
      = Except.error SyncError.payloadShape
    ∧ ∃ r, syncFromPayload envFail newAgentState
        { tickets_to_create := some (SeqVal.list []),
          tickets_to_update := some (SeqVal.list []) } = Except.ok r :=
  ⟨(sync_payload_shape envFail newAgentState
      { tickets_to_create := some SeqVal.notSeq,
        tickets_to_update := some (SeqVal.list []) }).1 (Or.inl rfl),
   (sync_payload_shape envFail newAgentState
      { tickets_to_create := some SeqVal.notSeq,
        tickets_to_update := some (SeqVal.list []) }).2.1 [] []⟩

/-- C10: a string under either payload key passes the sequence test, so
sync never reports the payload-shape error for it; an empty string
behaves exactly like an empty instruction list; and a non-empty string
fails only later, while iterating its characters as instructions. -/
theorem sync_string_payload (env : RemoteEnv) (st0 : AgentState) (s : String)
    (cs : List CreateTicket) (us : List UpdateTicket) :
    isSequence (SeqVal.str s : SeqVal CreateTicket) = true
    ∧ syncFromPayload env st0
        { tickets_to_create := some (SeqVal.str s),
          tickets_to_update := some (SeqVal.list us) }
        ≠ Except.error SyncError.payloadShape
    ∧ syncFromPayload env st0
        { tickets_to_create := some (SeqVal.list cs),
          tickets_to_update := some (SeqVal.str s) }
        ≠ Except.error SyncError.payloadShape
    ∧ (∀ v, syncFromPayload env st0
        { tickets_to_create := some (SeqVal.str ""), tickets_to_update := v }
        = syncFromPayload env st0
        { tickets_to_create := some (SeqVal.list []), tickets_to_update := v })
    ∧ (∀ w, syncFromPayload env st0
        { tickets_to_create := w, tickets_to_update := some (SeqVal.str "") }
        = syncFromPayload env st0
        { tickets_to_create := w, tickets_to_update := some (SeqVal.list []) })
    ∧ (s ≠ "" → syncFromPayload env st0
        { tickets_to_create := some (SeqVal.str s),
          tickets_to_update := some (SeqVal.list us) }
        = Except.error SyncError.attrError) := by
  refine ⟨rfl, ?_, ?_, ?_, ?_, ?_⟩
  · by_cases h : s.isEmpty <;>
      simp [syncFromPayload, isSequence, seqElems, h]
  · by_cases h : s.isEmpty <;>
      simp [syncFromPayload, isSequence, seqElems, h]
  · intro v
    rcases v with _ | v
    · rfl
    · rcases v with s' | ts | _ <;> rfl
  · intro w
    rcases w with _ | w
    · rfl
    · rcases w with s' | ts | _ <;> rfl
  · intro h
    have h2 : s.isEmpty = false := by
      by_cases hs : s.isEmpty = true
      · exact absurd ((String.isEmpty_iff s).mp hs) h
      · simpa using hs
    simp [syncFromPayload, isSequence, seqElems, h2]

theorem sync_string_payload_witness :
    syncFromPayload envFail newAgentState
        { tickets_to_create := some (SeqVal.str "ab"),
          tickets_to_update := some (SeqVal.list []) }
        ≠ Except.error SyncError.payloadShape
    ∧ syncFromPayload envFail newAgentState
        { tickets_to_create := some (SeqVal.str "ab"),
          tickets_to_update := some (SeqVal.list []) }
        = Except.error SyncError.attrError
    ∧ syncFromPayload envFail newAgentState
        { tickets_to_create := some (SeqVal.str ""),
          tickets_to_update := some (SeqVal.list []) }
        = syncFromPayload envFail newAgentState
        { tickets_to_create := some (SeqVal.list []),
          tickets_to_update := some (SeqVal.list []) } :=
  ⟨(sync_string_payload envFail newAgentState "ab" [] []).2.1,
   (sync_string_payload envFail newAgentState "ab" [] []).2.2.2.2.2 (by decide),
   (sync_string_payload envFail newAgentState "" [] []).2.2.2.1
     (some (SeqVal.list []))⟩

theorem findTransition_eq_find? (trs : List Transition) (ns : String) :
    findTransition trs ns
      = (trs.find? (fun tr => tr.toName.toLower == ns.toLower)).map Transition.id := by
  induction trs with
  | nil => rfl
  | cons tr rest ih =>
    by_cases h : tr.toName.toLower = ns.toLower
    · simp [findTransition, h]
    · simp [findTransition, h, ih]

theorem findTransition_eq_none_of_no_match (trs : List Transition) (ns : String)
    (h : ∀ tr ∈ trs, tr.toName.toLower ≠ ns.toLower) :
    findTransition trs ns = Option.none := by
  induction trs with
  | nil => rfl
  | cons tr rest ih =>
    have h1 : tr.toName.toLower ≠ ns.toLower := h tr (List.mem_cons_self tr rest)
    simp only [findTransition, h1, if_false]
    exact ih (fun x hx => h x (List.mem_cons_of_mem tr hx))

/-- C8: transition resolution compares each fetched transition's
destination name with the target case-insensitively and the first match
wins (it is `List.find?` on lowered names); when the fetch succeeds but no
transition matches, the status change fails and the only call issued is
the transitions fetch — no transition-submit call is made. -/
theorem transition_resolution (env : RemoteEnv) (st : AgentState) (ik ns : String) :
    findTransition (env.transitionsResp ik).2 ns
      = ((env.transitionsResp ik).2.find?
          (fun tr => tr.toName.toLower == ns.toLower)).map Transition.id
    ∧ ((env.transitionsResp ik).1 < 300 →
       (∀ tr ∈ (env.transitionsResp ik).2, tr.toName.toLower ≠ ns.toLower) →
       transitionIssue env st ik ns
         = (false, { st with calls := st.calls ++ [RemoteCall.getTransitions ik] })) := by
  refine ⟨findTransition_eq_find? _ _, ?_⟩
  intro h1 h2
  have hnone : findTransition (env.transitionsResp ik).2 ns = Option.none :=
    findTransition_eq_none_of_no_match _ _ h2
  have hlt : ((env.transitionsResp ik).1 ≥ 300) = False := by
    simp only [ge_iff_le, eq_iff_iff, iff_false, not_le]
    exact h1
  unfold transitionIssue
  simp [hlt, hnone]

theorem transition_resolution_witness :
    transitionIssue envNoTransition newAgentState "SCRUM-10" "Done"
      = (false, { newAgentState with
                    calls := [RemoteCall.getTransitions "SCRUM-10"] }) :=
  (transition_resolution envNoTransition newAgentState "SCRUM-10" "Done").2
    (by decide) (by intro tr htr; simp [envNoTransition] at htr)

theorem assocInsert_of_lookup_none (l : List (String × Option String)) (k : String)
    (v : Option String) (h : List.lookup k l = Option.none) :
    assocInsert l k v = l ++ [(k, v)] := by
  unfold assocInsert
  have hany : (l.any (fun p => p.1 = k)) = false := by
    rw [List.any_eq_false]
    intro p hp
    have hne := List.lookup_eq_none_iff.mp h p hp
    simp only [bne_iff_ne, ne_eq] at hne
    simp only [decide_eq_true_eq]
    exact fun hk => hne hk.symm
  simp [hany]

theorem lookup_assocInsert_self (l : List (String × Option String)) (k : String)
    (v : Option String) (h : List.lookup k l = Option.none) :
    List.lookup k (assocInsert l k v) = some v := by
  rw [assocInsert_of_lookup_none l k v h, List.lookup_append, h]
  simp

/-- C3: identity resolution is memoized.  Resolving a name a second time
returns the same outcome and leaves the state unchanged; the first
resolution adds at most one user-search call; after a resolution the
outcome is cached under the name; and a fresh resolution whose remote
search fails or matches no user yields (and caches) the negative
outcome. -/
theorem lookup_memoized (env : RemoteEnv) (st : AgentState) (name : String) :
    lookupAccountId env (lookupAccountId env st name).2 name
      = ((lookupAccountId env st name).1, (lookupAccountId env st name).2)
    ∧ ((lookupAccountId env st name).2.calls = st.calls
       ∨ (lookupAccountId env st name).2.calls = st.calls ++ [RemoteCall.userSearch name])
    ∧ List.lookup name (lookupAccountId env st name).2.accountCache
        = some (lookupAccountId env st name).1
    ∧ (List.lookup name st.accountCache = Option.none →
       ((env.userSearchResp name).1 ≥ 300 ∨ (env.userSearchResp name).2 = []) →
       (lookupAccountId env st name).1 = Option.none) := by
  rcases hc : List.lookup name st.accountCache with _ | cached
  · have hins : ∀ v, List.lookup name (assocInsert st.accountCache name v) = some v :=
      fun v => lookup_assocInsert_self st.accountCache name v hc
    by_cases hs : (env.userSearchResp name).1 ≥ 300
    · refine ⟨?_, Or.inr ?_, ?_, ?_⟩ <;>
        simp [lookupAccountId, hc, hs, hins]
    · rcases hu : (env.userSearchResp name).2 with _ | ⟨u, us⟩
      · refine ⟨?_, Or.inr ?_, ?_, ?_⟩ <;>
          simp [lookupAccountId, hc, hs, hu, hins]
      · refine ⟨?_, Or.inr ?_, ?_, ?_⟩ <;>
          simp [lookupAccountId, hc, hs, hu, hins]
  · refine ⟨?_, Or.inl ?_, ?_, ?_⟩ <;>
      simp [lookupAccountId, hc]

theorem lookup_memoized_witness :
    lookupAccountId envFail (lookupAccountId envFail newAgentState "alice").2 "alice"
      = ((lookupAccountId envFail newAgentState "alice").1,
         (lookupAccountId envFail newAgentState "alice").2)
    ∧ (lookupAccountId envFail newAgentState "alice").1 = Option.none :=
  ⟨(lookup_memoized envFail newAgentState "alice").1,
   (lookup_memoized envFail newAgentState "alice").2.2.2 (by decide)
     (Or.inl (by decide))⟩

/-- Create instruction whose issue type and priority are explicitly null
and whose required fields are present. -/
def ticketNullType : CreateTicket :=
  { baseCreateTicket with
      project_key := some (PyStr.str "SCRUM")
      summary := some (PyStr.str "Fix bug")
      description := some (PyStr.str "desc")
      issue_type := some PyStr.none
      priority := some PyStr.none }

/-- C2 counterexample: a create instruction whose issue type and priority
are explicitly null (not missing) submits null for both — the defaults
"Task" and "Medium" are not applied, contrary to the claim. -/
theorem create_null_not_defaulted :
    (createIssue envOk newAgentState ticketNullType).2.calls
      = [RemoteCall.createIssue
          { projectKey := "SCRUM", summary := "Fix bug",
            description := toAdf "desc",
            issuetypeName := PyStr.none, priorityName := PyStr.none,
            labels := ["pm-copilot"], duedate := Option.none,
            assigneeId := Option.none }]
    ∧ PyStr.none ≠ PyStr.str "Task" ∧ PyStr.none ≠ PyStr.str "Medium" :=
  ⟨rfl, by decide, by decide⟩

/-- C2 (amended): for a create instruction with the required fields
present and non-empty, the submitted request's issue type is the value of
`get("issue_type", "Task")` and likewise for priority — so a missing
issue type or priority is defaulted to "Task" / "Medium" while an
explicitly null one is submitted as null — and a missing, null, or empty
label set is defaulted to the singleton label set `pm-copilot`. -/
theorem create_defaults (env : RemoteEnv) (st : AgentState) (t : CreateTicket)
    (pk sm ds : String)
    (hpk : getStr t.project_key = some pk) (hpk2 : pk.isEmpty = false)
    (hsm : getStr t.summary = some sm) (hsm2 : sm.isEmpty = false)
    (hds : getStr t.description = some ds) (hds2 : ds.isEmpty = false) :
    ∃ fields : CreateFields,
      (createIssue env st t).2.calls.getLast? = some (RemoteCall.createIssue fields)
      ∧ fields.issuetypeName = getStrD t.issue_type "Task"
      ∧ fields.priorityName = getStrD t.priority "Medium"
      ∧ (t.issue_type = Option.none → fields.issuetypeName = PyStr.str "Task")
      ∧ (t.priority = Option.none → fields.priorityName = PyStr.str "Medium")
      ∧ ((t.labels = Option.none ∨ t.labels = some []) → fields.labels = ["pm-copilot"])
      ∧ (t.issue_type = some PyStr.none → fields.issuetypeName = PyStr.none) := by
  unfold createIssue
  rw [hpk, hsm, hds]
  simp only [hpk2, hsm2, hds2, Bool.false_or, Bool.or_self, Bool.false_eq_true, if_false]
  rcases hA : resolveAssignee env st (getStr t.assignee) with ⟨acc, st1⟩
  refine ⟨mkCreateFields t pk sm ds acc, ?_, rfl, rfl, ?_, ?_, ?_, ?_⟩
  · rw [apply_ite Prod.snd]
    simp only [ite_self]
    rw [List.getLast?_concat]
  · intro h
    simp [mkCreateFields, getStrD, h]
  · intro h
    simp [mkCreateFields, getStrD, h]
  · rintro (h | h) <;> simp [mkCreateFields, h]
  · intro h
    simp [mkCreateFields, getStrD, h]

theorem create_defaults_witness :
    ∃ fields : CreateFields,
      (createIssue envOk newAgentState
        { baseCreateTicket with
            project_key := some (PyStr.str "SCRUM")
            summary := some (PyStr.str "Fix bug")
            description := some (PyStr.str "desc") }).2.calls.getLast?
        = some (RemoteCall.createIssue fields)
      ∧ fields.issuetypeName = getStrD Option.none "Task"
      ∧ fields.priorityName = getStrD Option.none "Medium" := by
  obtain ⟨fields, h1, h2, h3, _⟩ := create_defaults envOk newAgentState
    { baseCreateTicket with
        project_key := some (PyStr.str "SCRUM")
        summary := some (PyStr.str "Fix bug")
        description := some (PyStr.str "desc") }
    "SCRUM" "Fix bug" "desc" rfl rfl rfl rfl rfl rfl
  exact ⟨fields, h1, h2, h3⟩

/-- C6: for a create instruction with project key, summary and
description present and non-empty, the last remote call is the creation
request, and a created action carrying the instruction's summary is
returned exactly when that request's response status is below 300; on a
non-success response nothing is returned. -/
theorem create_success_iff (env : RemoteEnv) (st : AgentState) (t : CreateTicket)
    (pk sm ds : String)
    (hpk : getStr t.project_key = some pk) (hpk2 : pk.isEmpty = false)
    (hsm : getStr t.summary = some sm) (hsm2 : sm.isEmpty = false)
    (hds : getStr t.description = some ds) (hds2 : ds.isEmpty = false) :
    ∃ fields : CreateFields,
      (createIssue env st t).2.calls.getLast? = some (RemoteCall.createIssue fields)
      ∧ ((∃ a, (createIssue env st t).1 = some a ∧ a.summary = sm)
          ↔ (env.createResp fields).1 < 300)
      ∧ ((env.createResp fields).1 ≥ 300 → (createIssue env st t).1 = Option.none) := by
  unfold createIssue
  rw [hpk, hsm, hds]
  simp only [hpk2, hsm2, hds2, Bool.false_or, Bool.or_self, Bool.false_eq_true, if_false]
  rcases hA : resolveAssignee env st (getStr t.assignee) with ⟨acc, st1⟩
  refine ⟨mkCreateFields t pk sm ds acc, ?_, ?_, ?_⟩
  · rw [apply_ite Prod.snd]
    simp only [ite_self]
    rw [List.getLast?_concat]
  · by_cases h : (env.createResp (mkCreateFields t pk sm ds acc)).1 ≥ 300
    · rw [if_pos h]
      constructor
      · rintro ⟨a, ha, _⟩
        exact absurd ha (by simp)
      · intro hlt
        omega
    · rw [if_neg h]
      simp only [not_le] at h
      exact ⟨fun _ => h, fun _ => ⟨_, rfl, rfl⟩⟩
  · intro h
    rw [if_pos h]

theorem create_success_iff_witness :
    ∃ fields : CreateFields,
      (createIssue envOk newAgentState
        { baseCreateTicket with
            project_key := some (PyStr.str "SCRUM")
            summary := some (PyStr.str "Fix bug")
            description := some (PyStr.str "desc") }).2.calls.getLast?
        = some (RemoteCall.createIssue fields)
      ∧ ((∃ a, (createIssue envOk newAgentState
          { baseCreateTicket with
              project_key := some (PyStr.str "SCRUM")
              summary := some (PyStr.str "Fix bug")
              description := some (PyStr.str "desc") }).1 = some a ∧ a.summary = "Fix bug")
          ↔ (envOk.createResp fields).1 < 300) :=
  match create_success_iff envOk newAgentState
    { baseCreateTicket with
        project_key := some (PyStr.str "SCRUM")
        summary := some (PyStr.str "Fix bug")
        description := some (PyStr.str "desc") }
    "SCRUM" "Fix bug" "desc" rfl rfl rfl rfl rfl rfl with
  | ⟨fields, h1, h2, _⟩ => ⟨fields, h1, h2⟩

/-- Success of the status-change sub-operation, as a function of the
remote responses only (the agent state does not influence it). -/
def transitionOutcome (env : RemoteEnv) (issueKey newStatus : String) : Bool :=
  if (env.transitionsResp issueKey).1 ≥ 300 then false
  else
    match findTransition (env.transitionsResp issueKey).2 newStatus with
    | some (some tid) =>
      if tid.isEmpty then false
      else decide (env.transitionSubmitResp issueKey tid < 300)
    | _ => false

theorem transitionIssue_fst (env : RemoteEnv) (st : AgentState) (ik ns : String) :
    (transitionIssue env st ik ns).1 = transitionOutcome env ik ns := by
  unfold transitionIssue transitionOutcome
  by_cases h : (env.transitionsResp ik).1 ≥ 300
  · simp [h]
  · simp only [h, Bool.false_eq_true, if_false]
    rcases hft : findTransition (env.transitionsResp ik).2 ns with _ | x
    · simp
    · rcases x with _ | tid
      · simp
      · by_cases ht : tid.isEmpty <;> simp [ht]

/-- Comment markers the comment sub-operation contributes. -/
def commentStep (env : RemoteEnv) (ik : String) (t : UpdateTicket) : List String :=
  match getStr t.comment with
  | some c =>
    if c.isEmpty then []
    else if env.commentResp ik (toAdf c) < 300 then ["comment"] else []
  | Option.none => []

/-- Status the status-change sub-operation records. -/
def statusStep (env : RemoteEnv) (ik : String) (t : UpdateTicket) : Option String :=
  match getStr t.new_status with
  | some ns =>
    if ns.isEmpty then Option.none
    else if transitionOutcome env ik ns then some ns else Option.none
  | Option.none => Option.none

/-- Field names the field-patch sub-operation records. -/
def fieldsStep (env : RemoteEnv) (ik : String) (t : UpdateTicket) : List String :=
  let fs := t.fields.getD []
  if fs.isEmpty then []
  else if env.updateFieldsResp ik (adfPatch fs) < 300 then fs.map Prod.fst else []

/-- Action `_update_issue` returns, as a function of the remote responses
only. -/
def updateOutcome (env : RemoteEnv) (ik : String) (t : UpdateTicket) :
    Option JiraUpdateAction :=
  let cs := commentStep env ik t
  let ns := statusStep env ik t
  let fu := fieldsStep env ik t
  if !cs.isEmpty || optTruthy ns || !fu.isEmpty then
    some { key := ik, comments_added := cs, new_status := ns, fields_updated := fu }
  else Option.none

theorem commentStage_fst (env : RemoteEnv) (st : AgentState) (ik : String)
    (t : UpdateTicket) : (commentStage env st ik t).1 = commentStep env ik t := by
  unfold commentStage commentStep addComment
  rcases getStr t.comment with _ | c
  · rfl
  · by_cases hc : c.isEmpty <;> simp [hc]

theorem statusStage_fst (env : RemoteEnv) (st : AgentState) (ik : String)
    (t : UpdateTicket) : (statusStage env st ik t).1 = statusStep env ik t := by
  unfold statusStage statusStep
  rcases getStr t.new_status with _ | ns
  · rfl
  · by_cases hns : ns.isEmpty <;> simp [hns, transitionIssue_fst]

theorem fieldsStage_fst (env : RemoteEnv) (st : AgentState) (ik : String)
    (t : UpdateTicket) : (fieldsStage env st ik t).1 = fieldsStep env ik t := by
  unfold fieldsStage fieldsStep updateFieldsOp
  by_cases hf : (t.fields.getD []).isEmpty <;> simp [hf]

theorem updateIssue_fst_char (env : RemoteEnv) (st : AgentState) (t : UpdateTicket)
    (ik : String) (hik : getStr t.issue_key = some ik) (hik2 : ik.isEmpty = false) :
    (updateIssue env st t).1 = updateOutcome env ik t := by
  unfold updateIssue updateOutcome
  rw [hik]
  simp only [hik2, Bool.false_eq_true, if_false]
  rw [commentStage_fst, statusStage_fst, fieldsStage_fst]
  rw [apply_ite Prod.fst]

theorem commentStep_isEmpty_iff (env : RemoteEnv) (ik : String) (t : UpdateTicket) :
    (commentStep env ik t).isEmpty = false ↔
      ∃ c, getStr t.comment = some c ∧ c.isEmpty = false
        ∧ env.commentResp ik (toAdf c) < 300 := by
  unfold commentStep
  rcases hc : getStr t.comment with _ | c
  · simp
  · by_cases hce : c.isEmpty
    · simp [hce]
    · by_cases hcc : env.commentResp ik (toAdf c) < 300 <;> simp [hce, hcc]

theorem statusStep_truthy_iff (env : RemoteEnv) (ik : String) (t : UpdateTicket) :
    optTruthy (statusStep env ik t) = true ↔
      ∃ ns, getStr t.new_status = some ns ∧ ns.isEmpty = false
        ∧ transitionOutcome env ik ns = true := by
  unfold statusStep
  rcases hs : getStr t.new_status with _ | ns
  · simp [optTruthy]
  · by_cases hne : ns.isEmpty
    · simp [hne, optTruthy]
    · by_cases ho : transitionOutcome env ik ns <;> simp [hne, ho, optTruthy]

theorem fieldsStep_isEmpty_iff (env : RemoteEnv) (ik : String) (t : UpdateTicket) :
    (fieldsStep env ik t).isEmpty = false ↔
      (t.fields.getD []).isEmpty = false
        ∧ env.updateFieldsResp ik (adfPatch (t.fields.getD [])) < 300 := by
  unfold fieldsStep
  by_cases hf : (t.fields.getD []).isEmpty
  · simp [hf]
  · by_cases hu : env.updateFieldsResp ik (adfPatch (t.fields.getD [])) < 300 <;>
      simp_all

theorem updateOutcome_isSome (env : RemoteEnv) (ik : String) (t : UpdateTicket) :
    (updateOutcome env ik t).isSome
      = (!(commentStep env ik t).isEmpty || optTruthy (statusStep env ik t)
          || !(fieldsStep env ik t).isEmpty) := by
  unfold updateOutcome
  cases hbb : (!(commentStep env ik t).isEmpty || optTruthy (statusStep env ik t)
      || !(fieldsStep env ik t).isEmpty) <;> simp [hbb]

/-- C4: for an update instruction with a non-empty issue key, an action
is returned iff at least one of the three independently attempted
sub-operations (comment, status change, field patch) succeeded; and when
the comment and the field patch succeed while the status change fails,
the returned action carries the comment marker and the patched field
names with no new status. -/
theorem update_partial_success (env : RemoteEnv) (st : AgentState) (t : UpdateTicket)
    (ik : String) (hik : getStr t.issue_key = some ik) (hik2 : ik.isEmpty = false) :
    ((updateIssue env st t).1.isSome = true ↔
      ((∃ c, getStr t.comment = some c ∧ c.isEmpty = false
          ∧ env.commentResp ik (toAdf c) < 300)
       ∨ (∃ ns, getStr t.new_status = some ns ∧ ns.isEmpty = false
          ∧ transitionOutcome env ik ns = true)
       ∨ ((t.fields.getD []).isEmpty = false
          ∧ env.updateFieldsResp ik (adfPatch (t.fields.getD [])) < 300)))
    ∧ (∀ (c ns : String) (fs : List (String × FieldVal)),
        getStr t.comment = some c → c.isEmpty = false →
        getStr t.new_status = some ns → ns.isEmpty = false →
        t.fields = some fs → fs.isEmpty = false →
        env.commentResp ik (toAdf c) < 300 →
        env.updateFieldsResp ik (adfPatch fs) < 300 →
        transitionOutcome env ik ns = false →
        (updateIssue env st t).1
          = some { key := ik, comments_added := ["comment"],
                   new_status := Option.none, fields_updated := fs.map Prod.fst }
          ∧ (fs.map Prod.fst).isEmpty = false) := by
  rw [updateIssue_fst_char env st t ik hik hik2]
  constructor
  · rw [Option.isSome_iff_exists]
    constructor
    · rintro ⟨a, ha⟩
      have hsome : (updateOutcome env ik t).isSome = true := by
        rw [ha]
        rfl
      rw [updateOutcome_isSome] at hsome
      simp only [Bool.or_eq_true, Bool.not_eq_true'] at hsome
      rcases hsome with (h | h) | h
      · exact Or.inl ((commentStep_isEmpty_iff env ik t).mp h)
      · exact Or.inr (Or.inl ((statusStep_truthy_iff env ik t).mp h))
      · exact Or.inr (Or.inr ((fieldsStep_isEmpty_iff env ik t).mp h))
    · intro h
      have hsome : (updateOutcome env ik t).isSome = true := by
        rw [updateOutcome_isSome]
        simp only [Bool.or_eq_true, Bool.not_eq_true']
        rcases h with h | h | h
        · exact Or.inl (Or.inl ((commentStep_isEmpty_iff env ik t).mpr h))
        · exact Or.inl (Or.inr ((statusStep_truthy_iff env ik t).mpr h))
        · exact Or.inr ((fieldsStep_isEmpty_iff env ik t).mpr h)
      exact Option.isSome_iff_exists.mp hsome
  · intro c ns fs hc hc2 hs hs2 hf hf2 hcc huf hto
    have hcs : commentStep env ik t = ["comment"] := by
      unfold commentStep
      rw [hc]
      simp [hc2, hcc]
    have hss : statusStep env ik t = Option.none := by
      unfold statusStep
      rw [hs]
      simp [hs2, hto]
    have hfs : fieldsStep env ik t = fs.map Prod.fst := by
      unfold fieldsStep
      rw [hf]
      simp [hf2, huf]
    have hmap : (fs.map Prod.fst).isEmpty = false := by
      rw [List.isEmpty_eq_false] at hf2 ⊢
      simpa using hf2
    refine ⟨?_, hmap⟩
    unfold updateOutcome
    rw [hcs, hss, hfs]
    simp [optTruthy]

/-- Update instruction attempting a comment, a status change and a field
patch at once. -/
def ticketFullUpdate : UpdateTicket :=
  { issue_key := some (PyStr.str "SCRUM-10")
    comment := some (PyStr.str "note")
    new_status := some (PyStr.str "Done")
    fields := some [("labels", FieldVal.other)] }

theorem update_partial_success_witness :
    (updateIssue envNoTransition newAgentState ticketFullUpdate).1
      = some { key := "SCRUM-10", comments_added := ["comment"],
               new_status := Option.none, fields_updated := ["labels"] } :=
  ((update_partial_success envNoTransition newAgentState ticketFullUpdate "SCRUM-10"
      rfl rfl).2 "note" "Done" [("labels", FieldVal.other)]
      rfl rfl rfl rfl rfl rfl (by decide) (by decide) (by decide)).1

theorem lookupAccountId_cache_nodup (env : RemoteEnv) (st : AgentState) (name : String)
    (h : (st.accountCache.map Prod.fst).Nodup) :
    ((lookupAccountId env st name).2.accountCache.map Prod.fst).Nodup := by
  unfold lookupAccountId
  rcases hc : List.lookup name st.accountCache with _ | cached
  · have hmem : name ∉ st.accountCache.map Prod.fst := by
      intro hm
      rcases List.mem_map.mp hm with ⟨p, hp, hp2⟩
      have hne := List.lookup_eq_none_iff.mp hc p hp
      simp only [bne_iff_ne, ne_eq] at hne
      exact hne hp2.symm
    have hins : ∀ v, ((assocInsert st.accountCache name v).map Prod.fst).Nodup := by
      intro v
      rw [assocInsert_of_lookup_none _ _ _ hc, List.map_append]
      have := (List.Nodup.concat hmem h)
      simpa [List.concat_eq_append] using this
    by_cases hs : (env.userSearchResp name).1 ≥ 300 <;> simp [hs, hins]
  · simpa using h

theorem resolveAssignee_cache_nodup (env : RemoteEnv) (st : AgentState)
    (assignee : Option String) (h : (st.accountCache.map Prod.fst).Nodup) :
    ((resolveAssignee env st assignee).2.accountCache.map Prod.fst).Nodup := by
  unfold resolveAssignee
  rcases assignee with _ | nm
  · simpa using h
  · by_cases hn : nm.isEmpty
    · simpa [hn] using h
    · simpa [hn] using lookupAccountId_cache_nodup env st nm h

theorem createIssue_cache_nodup (env : RemoteEnv) (st : AgentState) (t : CreateTicket)
    (h : (st.accountCache.map Prod.fst).Nodup) :
    ((createIssue env st t).2.accountCache.map Prod.fst).Nodup := by
  unfold createIssue
  rcases getStr t.project_key with _ | pk <;>
    rcases getStr t.summary with _ | sm <;>
      rcases getStr t.description with _ | ds <;>
        try simpa using h
  by_cases hemp : (pk.isEmpty || sm.isEmpty || ds.isEmpty)
  · simpa [hemp] using h
  · simp only [hemp, Bool.false_eq_true, if_false]
    rw [apply_ite Prod.snd]
    simp only [ite_self]
    simpa using resolveAssignee_cache_nodup env st (getStr t.assignee) h

theorem commentStage_cache (env : RemoteEnv) (st : AgentState) (ik : String)
    (t : UpdateTicket) : (commentStage env st ik t).2.accountCache = st.accountCache := by
  unfold commentStage addComment
  rcases getStr t.comment with _ | c
  · rfl
  · by_cases hc : c.isEmpty <;> simp [hc]

theorem transitionIssue_cache (env : RemoteEnv) (st : AgentState) (ik ns : String) :
    (transitionIssue env st ik ns).2.accountCache = st.accountCache := by
  unfold transitionIssue
  by_cases h : (env.transitionsResp ik).1 ≥ 300
  · simp [h]
  · simp only [h, Bool.false_eq_true, if_false]
    rcases findTransition (env.transitionsResp ik).2 ns with _ | x
    · rfl
    · rcases x with _ | tid
      · rfl
      · by_cases ht : tid.isEmpty <;> simp [ht]

theorem statusStage_cache (env : RemoteEnv) (st : AgentState) (ik : String)
    (t : UpdateTicket) : (statusStage env st ik t).2.accountCache = st.accountCache := by
  unfold statusStage
  rcases getStr t.new_status with _ | ns
  · rfl
  · by_cases hn : ns.isEmpty <;> simp [hn, transitionIssue_cache]

theorem fieldsStage_cache (env : RemoteEnv) (st : AgentState) (ik : String)
    (t : UpdateTicket) : (fieldsStage env st ik t).2.accountCache = st.accountCache := by
  unfold fieldsStage updateFieldsOp
  by_cases hf : (t.fields.getD []).isEmpty <;> simp [hf]

theorem updateIssue_cache (env : RemoteEnv) (st : AgentState) (t : UpdateTicket) :
    (updateIssue env st t).2.accountCache = st.accountCache := by
  unfold updateIssue
  rcases getStr t.issue_key with _ | ik
  · rfl
  · by_cases hik : ik.isEmpty
    · simp [hik]
    · simp only [hik, Bool.false_eq_true, if_false]
      rw [apply_ite Prod.snd]
      simp only [ite_self]
      rw [fieldsStage_cache, statusStage_cache, commentStage_cache]

theorem runCreates_cache_nodup (env : RemoteEnv) (ts : List CreateTicket)
    (st : AgentState) (h : (st.accountCache.map Prod.fst).Nodup) :
    (((runCreates env ts st).2).accountCache.map Prod.fst).Nodup := by
  induction ts generalizing st with
  | nil => simpa using h
  | cons t ts ih =>
    simpa [runCreates] using ih _ (createIssue_cache_nodup env st t h)

theorem runUpdates_cache (env : RemoteEnv) (ts : List UpdateTicket) (st : AgentState) :
    ((runUpdates env ts st).2).accountCache = st.accountCache := by
  induction ts generalizing st with
  | nil => rfl
  | cons t ts ih =>
    simp [runUpdates, ih, updateIssue_cache]

/-- C9: for a well-shaped payload, the reported unresolved assignee names
are exactly the names whose cached resolution in the final account cache
is falsy (negative), in cache order, and — the cache keys being unique —
the reported list contains no duplicates. -/
theorem sync_unresolved_names (env : RemoteEnv) (st0 : AgentState)
    (cs : List CreateTicket) (us : List UpdateTicket)
    (hnd : (st0.accountCache.map Prod.fst).Nodup) :
    ∃ (r : JiraSyncResult) (st1 : AgentState),
      syncFromPayload env st0
        { tickets_to_create := some (SeqVal.list cs),
          tickets_to_update := some (SeqVal.list us) } = Except.ok (r, st1)
      ∧ r.unresolved_assignees
          = (st1.accountCache.filter (fun q => !optTruthy q.2)).map Prod.fst
      ∧ r.unresolved_assignees.Nodup := by
  refine ⟨_, _, rfl, rfl, ?_⟩
  have hkeys : ((runUpdates env us (runCreates env cs st0).2).2.accountCache.map
      Prod.fst).Nodup := by
    rw [runUpdates_cache]
    exact runCreates_cache_nodup env cs st0 hnd
  have hsub : List.Sublist
      (((runUpdates env us (runCreates env cs st0).2).2.accountCache.filter
        (fun q => !optTruthy q.2)).map Prod.fst)
      ((runUpdates env us (runCreates env cs st0).2).2.accountCache.map Prod.fst) :=
    List.Sublist.map Prod.fst (List.filter_sublist _)
  exact List.Sublist.nodup hsub hkeys

/-- Create instruction whose assignee cannot be resolved. -/
def ticketWithAssignee : CreateTicket :=
  { baseCreateTicket with
      project_key := some (PyStr.str "SCRUM")
      summary := some (PyStr.str "Fix bug")
      description := some (PyStr.str "desc")
      assignee := some (PyStr.str "alice") }

theorem sync_unresolved_names_witness :
    ∃ (r : JiraSyncResult) (st1 : AgentState),
      syncFromPayload envFail newAgentState
        { tickets_to_create := some (SeqVal.list [ticketWithAssignee]),
          tickets_to_update := some (SeqVal.list []) } = Except.ok (r, st1)
      ∧ r.unresolved_assignees
          = (st1.accountCache.filter (fun q => !optTruthy q.2)).map Prod.fst
      ∧ r.unresolved_assignees.Nodup :=
  sync_unresolved_names envFail newAgentState [ticketWithAssignee] []
    (by simp [newAgentState])

end Mcp
